import Mathlib

/-!
Verification of the tree-walking evaluator in `src/project/src/interpreter.cpp`
(the `motts::lox` interpreter): a shallow embedding of its data model
(`Literal`, `Environment`, `Callable`, the `Interpreter` state) and of its
expression/statement visitors, with theorems about scoping, closures, the
return-flag protocol, operator semantics and error behaviour.

Heap references (`shared_ptr<Environment>`, `shared_ptr<Callable>`) are
embedded as indices into explicit stores carried in the interpreter state;
C++ exceptions are embedded as an explicit error result threaded together
with the state; the unbounded recursion of the tree walk is embedded with a
fuel parameter (a distinguished `no_fuel` outcome keeps fuel exhaustion apart
from the interpreter's own runtime errors).
-/

namespace Cpplox

set_option maxHeartbeats 1000000

/-- An exact finite `double` value, kept as an unnormalised fraction.  Every
fraction the interpreter can build has a positive denominator: literals come
from `Frac.ofInt` (denominator 1), and each operation below preserves
positivity.  Fractions stay unnormalised so that all arithmetic is plain
integer arithmetic. -/
structure Frac where
  num : Int
  den : Int
deriving DecidableEq, Repr

/-- An integer-valued double. -/
def Frac.ofInt (n : Int) : Frac := ⟨n, 1⟩

/-- Exact addition of fractions. -/
def Frac.add : Frac → Frac → Frac
  | ⟨a, b⟩, ⟨c, d⟩ => ⟨a * d + c * b, b * d⟩

/-- Exact subtraction of fractions. -/
def Frac.sub : Frac → Frac → Frac
  | ⟨a, b⟩, ⟨c, d⟩ => ⟨a * d - c * b, b * d⟩

/-- Exact multiplication of fractions. -/
def Frac.mul : Frac → Frac → Frac
  | ⟨a, b⟩, ⟨c, d⟩ => ⟨a * c, b * d⟩

/-- Reciprocal of a nonzero fraction, keeping the denominator positive. -/
def Frac.inv : Frac → Frac
  | ⟨a, b⟩ => if a < 0 then ⟨-b, -a⟩ else ⟨b, a⟩

/-- Value equality of fractions (cross multiplication; denominators are
positive). -/
def Frac.beq : Frac → Frac → Bool
  | ⟨a, b⟩, ⟨c, d⟩ => a * d == c * b

/-- Value order of fractions (cross multiplication; denominators are
positive). -/
def Frac.blt : Frac → Frac → Bool
  | ⟨a, b⟩, ⟨c, d⟩ => decide (a * d < c * b)

/-- Non-strict value order of fractions. -/
def Frac.ble : Frac → Frac → Bool
  | ⟨a, b⟩, ⟨c, d⟩ => decide (a * d ≤ c * b)

/-- Exact negation of a fraction. -/
def Frac.neg : Frac → Frac
  | ⟨a, b⟩ => ⟨-a, b⟩

/-- Model of the C++ `double` restricted to the behaviour the interpreter
exercises: finite values are exact fractions and `nan` is kept apart so that
IEEE equality (`NaN != NaN`, used by `Is_equal_visitor` on numbers) is
representable.  Infinities are conflated with `nan` (only division by zero
could produce one; no theorem below depends on it). -/
inductive Dbl where
  | nan : Dbl
  | fin : Frac → Dbl
deriving DecidableEq, Repr

/-- IEEE `==` on doubles: `nan` compares unequal to everything, itself included. -/
def Dbl.beq : Dbl → Dbl → Bool
  | .fin a, .fin b => Frac.beq a b
  | _, _ => false

/-- Addition, `nan` propagating. -/
def Dbl.add : Dbl → Dbl → Dbl
  | .fin a, .fin b => .fin (a.add b)
  | _, _ => .nan

/-- Subtraction, `nan` propagating. -/
def Dbl.sub : Dbl → Dbl → Dbl
  | .fin a, .fin b => .fin (a.sub b)
  | _, _ => .nan

/-- Multiplication, `nan` propagating. -/
def Dbl.mul : Dbl → Dbl → Dbl
  | .fin a, .fin b => .fin (a.mul b)
  | _, _ => .nan

/-- Division; a zero divisor gives `nan` (standing in for the IEEE
infinity/NaN results, which this model does not separate). -/
def Dbl.div : Dbl → Dbl → Dbl
  | .fin a, .fin b => if b.num = 0 then .nan else .fin (a.mul b.inv)
  | _, _ => .nan

/-- Negation (unary minus), `nan` propagating. -/
def Dbl.neg : Dbl → Dbl
  | .fin a => .fin a.neg
  | .nan => .nan

/-- IEEE `<`: any comparison with `nan` is false. -/
def Dbl.lt : Dbl → Dbl → Bool
  | .fin a, .fin b => Frac.blt a b
  | _, _ => false

/-- IEEE `<=`: any comparison with `nan` is false. -/
def Dbl.le : Dbl → Dbl → Bool
  | .fin a, .fin b => Frac.ble a b
  | _, _ => false

/-- IEEE `>`: any comparison with `nan` is false. -/
def Dbl.gt : Dbl → Dbl → Bool
  | .fin a, .fin b => Frac.blt b a
  | _, _ => false

/-- IEEE `>=`: any comparison with `nan` is false. -/
def Dbl.ge : Dbl → Dbl → Bool
  | .fin a, .fin b => Frac.ble b a
  | _, _ => false

/-- The token types the interpreter dispatches on (`Token_type`); token types
the evaluator never names fall under `identifier`. -/
inductive Token_type where
  | minus | bang | plus | slash | star
  | greater | greater_equal | less | less_equal
  | bang_equal | equal_equal
  | or_kw | and_kw
  | identifier
deriving DecidableEq, Repr

/-- A token as the evaluator consumes it: its type, its source text
(`lexeme`) and the source line used for error attribution. -/
structure Token where
  type : Token_type
  lexeme : String
  line : Nat
deriving DecidableEq, Repr

/-- The runtime value (`Literal`): the `boost::variant` over
`{nullptr_t, bool, double, string, shared_ptr<Callable>}`.  A callable value
holds the identity of a shared `Callable` object, embedded as an index into
the interpreter state's callable store, so `==` on two callable values is
pointer (shared-reference) equality exactly as for `shared_ptr`. -/
inductive Literal where
  | nil
  | boolean : Bool → Literal
  | number : Dbl → Literal
  | string : String → Literal
  | callable : Nat → Literal
deriving DecidableEq, Repr

/-- A default-constructed `Literal{}` holds `nullptr_t`, i.e. nil. -/
instance : Inhabited Literal := ⟨Literal.nil⟩

/-- Expression nodes, as consumed by the `Interpreter::visit` overloads. -/
inductive Expr where
  | literal (value : Literal)
  | grouping (expr : Expr)
  | unary (op : Token) (right : Expr)
  | binary (left : Expr) (op : Token) (right : Expr)
  | var (name : Token)
  | assign (name : Token) (value : Expr)
  | logical (left : Expr) (op : Token) (right : Expr)
  | call (callee : Expr) (closing_paren : Token) (arguments : List Expr)

/-- Statement nodes, as consumed by the `Interpreter::visit` overloads. -/
inductive Stmt where
  | expr_stmt (expr : Expr)
  | if_stmt (condition : Expr) (then_branch : Stmt) (else_branch : Option Stmt)
  | while_stmt (condition : Expr) (body : Stmt)
  | print_stmt (expr : Expr)
  | var_stmt (name : Token) (initializer : Option Expr)
  | block (statements : List Stmt)
  | function_stmt (name : Token) (parameters : List Token) (body : List Stmt)
  | return_stmt (value : Option Expr)

/-- A `Callable` object: the native clock, or an `Interpreter::Function`
holding its declaration (name, parameters, body) and the environment that
was active at its definition (`enclosed_`), as an index into the frame
store. -/
inductive Callable where
  | clock
  | function (name : Token) (parameters : List Token) (body : List Stmt) (enclosed : Nat)

/-- Function::arity / Clock_callable::arity. -/
def Callable.arity : Callable → Nat
  | .clock => 0
  | .function _ parameters _ _ => parameters.length

/-- One `Environment`: its `values_` vector of (name, value) pairs and its
optional `enclosed_` link, embedded as an index into the frame store. -/
structure Environment where
  values : List (String × Literal)
  enclosed : Option Nat
deriving DecidableEq, Repr

instance : Inhabited Environment := ⟨⟨[], none⟩⟩

/-- Environment::find_in_chain: search this frame's own `values_`; if absent,
delegate to the enclosed frame.  Returns the (frame index, slot index) of the
nearest binding, `none` when no frame in the chain binds the name.  The walk
is bounded by `chain_fuel`; every frame's `enclosed` link points to an
earlier-allocated (strictly smaller) index, so `i + 1` fuel always suffices. -/
def find_in_chain_aux (frames : List Environment) :
    Nat → Nat → String → Option (Nat × Nat)
  | 0, _, _ => none
  | chain_fuel + 1, i, var_name =>
    let frame := frames.getD i default
    match frame.values.findIdx? (fun value => value.1 == var_name) with
    | some j => some (i, j)
    | none =>
      match frame.enclosed with
      | some parent => find_in_chain_aux frames chain_fuel parent var_name
      | none => none

/-- Environment::find_in_chain entered at frame `i`. -/
def find_in_chain (frames : List Environment) (i : Nat) (var_name : String) :
    Option (Nat × Nat) :=
  find_in_chain_aux frames (i + 1) i var_name

/-- Environment::find_own_or_make followed by assignment of `v` into the
returned slot (the two are only ever used together, as
`find_own_or_make(name) = value`): overwrite the slot if `name` is already in
this frame, else append a new pair. -/
def find_own_or_make_assign (frame : Environment) (var_name : String)
    (v : Literal) : Environment :=
  match frame.values.findIdx? (fun value => value.1 == var_name) with
  | some j => { frame with values := frame.values.set j (var_name, v) }
  | none => { frame with values := frame.values ++ [(var_name, v)] }

/-- Read the value held at a chain location returned by `find_in_chain`
(`found->second` as an rvalue). -/
def read_slot (frames : List Environment) (loc : Nat × Nat) : Literal :=
  ((frames.getD loc.1 default).values.getD loc.2 ("", Literal.nil)).2

/-- Overwrite the value held at a chain location returned by `find_in_chain`
(`found->second = v`); the slot's name is unchanged. -/
def assign_slot (frames : List Environment) (loc : Nat × Nat) (v : Literal) :
    List Environment :=
  let frame := frames.getD loc.1 default
  let var_name := (frame.values.getD loc.2 ("", Literal.nil)).1
  frames.set loc.1 { frame with values := frame.values.set loc.2 (var_name, v) }

/-- The Interpreter's state: the two store fields embed the heaps behind
`shared_ptr<Environment>` and `shared_ptr<Callable>`; `environment`,
`globals`, `result` and `returning` are the data members `environment_`,
`globals_`, `result_` and `returning_`; `output` records the values printed
to `cout` by `Print_stmt`; `now` abstracts `system_clock` for the native
clock. -/
structure Interpreter where
  frames : List Environment
  environment : Nat
  globals : Nat
  callables : List Callable
  result : Literal
  returning : Bool
  output : List Literal
  now : Dbl

/-- The Interpreter constructor: a single global environment (index 0), with
the native clock bound under `"clock"`. -/
def init_interpreter (now : Dbl) : Interpreter :=
  { frames := [{ values := [("clock", Literal.callable 0)], enclosed := none }]
    environment := 0
    globals := 0
    callables := [Callable.clock]
    result := Literal.nil
    returning := false
    output := []
    now := now }

/-- A thrown `Interpreter_error`: its message and, when the two-argument
constructor was used, the token it is attributed to. -/
structure Interpreter_error where
  message : String
  token : Option Token
deriving DecidableEq, Repr

/-- Outcome of one evaluation/execution: a value, a thrown
`Interpreter_error`, or fuel exhaustion (the embedding's artefact, distinct
from any interpreter behaviour). -/
inductive Res (α : Type) where
  | ok : α → Res α
  | err : Interpreter_error → Res α
  | no_fuel : Res α
deriving DecidableEq, Repr

/-- Is_truthy_visitor: false and nil are falsey, everything else is truthy. -/
def is_truthy : Literal → Bool
  | .boolean value => value
  | .nil => false
  | _ => true

/-- Is_equal_visitor: different variant kinds compare false, same kinds use
that kind's native equality (`==` of the held C++ type). -/
def is_equal : Literal → Literal → Bool
  | .nil, .nil => true
  | .boolean lhs, .boolean rhs => lhs == rhs
  | .number lhs, .number rhs => Dbl.beq lhs rhs
  | .string lhs, .string rhs => lhs == rhs
  | .callable lhs, .callable rhs => lhs == rhs
  | _, _ => false

/-- Plus_visitor: string concatenation, numeric sum, and a type error for
every other combination of operand kinds. -/
def plus_visitor : Literal → Literal → Res Literal
  | .string lhs, .string rhs => .ok (.string (lhs ++ rhs))
  | .number lhs, .number rhs => .ok (.number (Dbl.add lhs rhs))
  | _, _ => .err ⟨"Operands must be two numbers or two strings.", none⟩

/-- The `get<double>` probe: the number held by a Literal, or `none` (the
`bad_get` that the visitors translate into "Operands must be numbers."). -/
def get_double : Literal → Option Dbl
  | .number n => some n
  | _ => none

/-- The shared shape of the number-only binary cases of
`Interpreter::visit(const Binary_expr&)`: both operands must hold doubles,
else the caught `bad_get` becomes "Operands must be numbers." attributed to
the operator token. -/
def numeric_binary (op : Token) (k : Dbl → Dbl → Literal) (lhs rhs : Literal)
    (s : Interpreter) : Res Literal × Interpreter :=
  match get_double lhs, get_double rhs with
  | some a, some b => let v := k a b; (.ok v, { s with result := v })
  | _, _ => (.err ⟨"Operands must be numbers.", some op⟩, s)

/-- The parameter-binding loop of `Interpreter::Function::call`:
`find_own_or_make(parameters.at(i).lexeme) = arguments.at(i)` in order.  The
call site has already checked that the two lists have equal length (arity),
which makes `zip` lossless. -/
def bind_parameters (frame : Environment) :
    List (Token × Literal) → Environment
  | [] => frame
  | (parameter, argument) :: rest =>
    bind_parameters (find_own_or_make_assign frame parameter.lexeme argument) rest

/-- Bind `var_name` in the currently active environment
(`environment_->find_own_or_make(name) = v`). -/
def define_var (s : Interpreter) (var_name : String) (v : Literal) : Interpreter :=
  { s with
    frames := s.frames.set s.environment
      (find_own_or_make_assign (s.frames.getD s.environment default) var_name v) }

structure Machine where
  evaluate : Expr → Interpreter → Res Literal × Interpreter
  evaluate_arguments : List Expr → Interpreter → Res (List Literal) × Interpreter
  call_callable : Callable → List Literal → Interpreter → Res Literal × Interpreter
  execute_body : List Stmt → Interpreter → Res Literal × Interpreter
  execute : Stmt → Interpreter → Res Unit × Interpreter
  execute_block : List Stmt → Interpreter → Res Unit × Interpreter

def machine_zero : Machine :=
  { evaluate := fun _ s => (.no_fuel, s)
    evaluate_arguments := fun _ s => (.no_fuel, s)
    call_callable := fun _ _ s => (.no_fuel, s)
    execute_body := fun _ s => (.no_fuel, s)
    execute := fun _ s => (.no_fuel, s)
    execute_block := fun _ s => (.no_fuel, s) }

def machine_step (m : Machine) : Machine where
  evaluate := fun e s =>
    match e with
    | .literal value => (.ok value, { s with result := value })
    | .grouping inner => m.evaluate inner s
    | .unary op right =>
      match m.evaluate right s with
      | (.err er, s1) => (.err er, s1)
      | (.no_fuel, s1) => (.no_fuel, s1)
      | (.ok unary_result, s1) =>
        match op.type with
        | .minus =>
          match get_double unary_result with
          | some n => let v := Literal.number (Dbl.neg n); (.ok v, { s1 with result := v })
          | none => (.err ⟨"Operands must be numbers.", some op⟩, s1)
        | .bang =>
          let v := Literal.boolean (! is_truthy unary_result)
          (.ok v, { s1 with result := v })
        | _ => (.err ⟨"Unreachable.", some op⟩, s1)
    | .binary left op right =>
      match m.evaluate left s with
      | (.err er, s1) => (.err er, s1)
      | (.no_fuel, s1) => (.no_fuel, s1)
      | (.ok left_result, s1) =>
        match m.evaluate right s1 with
        | (.err er, s2) => (.err er, s2)
        | (.no_fuel, s2) => (.no_fuel, s2)
        | (.ok right_result, s2) =>
          match op.type with
          | .greater =>
            numeric_binary op (fun a b => .boolean (Dbl.gt a b)) left_result right_result s2
          | .greater_equal =>
            numeric_binary op (fun a b => .boolean (Dbl.ge a b)) left_result right_result s2
          | .less =>
            numeric_binary op (fun a b => .boolean (Dbl.lt a b)) left_result right_result s2
          | .less_equal =>
            numeric_binary op (fun a b => .boolean (Dbl.le a b)) left_result right_result s2
          | .bang_equal =>
            let v := Literal.boolean (! is_equal left_result right_result)
            (.ok v, { s2 with result := v })
          | .equal_equal =>
            let v := Literal.boolean (is_equal left_result right_result)
            (.ok v, { s2 with result := v })
          | .minus =>
            numeric_binary op (fun a b => .number (Dbl.sub a b)) left_result right_result s2
          | .plus =>
            match plus_visitor left_result right_result with
            | .ok v => (.ok v, { s2 with result := v })
            | .err er => (.err er, s2)
            | .no_fuel => (.no_fuel, s2)
          | .slash =>
            numeric_binary op (fun a b => .number (Dbl.div a b)) left_result right_result s2
          | .star =>
            numeric_binary op (fun a b => .number (Dbl.mul a b)) left_result right_result s2
          | _ => (.err ⟨"Unreachable.", some op⟩, s2)
    | .var name =>
      match find_in_chain s.frames s.environment name.lexeme with
      | none => (.err ⟨"Undefined variable '" ++ name.lexeme ++ "'.", none⟩, s)
      | some loc =>
        let v := read_slot s.frames loc
        (.ok v, { s with result := v })
    | .assign name value =>
      match find_in_chain s.frames s.environment name.lexeme with
      | none => (.err ⟨"Undefined variable '" ++ name.lexeme ++ "'.", none⟩, s)
      | some loc =>
        match m.evaluate value s with
        | (.err er, s1) => (.err er, s1)
        | (.no_fuel, s1) => (.no_fuel, s1)
        | (.ok v, s1) =>
          (.ok v, { s1 with frames := assign_slot s1.frames loc v, result := v })
    | .logical left op right =>
      match m.evaluate left s with
      | (.err er, s1) => (.err er, s1)
      | (.no_fuel, s1) => (.no_fuel, s1)
      | (.ok left_result, s1) =>
        match op.type with
        | .or_kw =>
          if is_truthy left_result then (.ok left_result, { s1 with result := left_result })
          else m.evaluate right s1
        | .and_kw =>
          if ! is_truthy left_result then (.ok left_result, { s1 with result := left_result })
          else m.evaluate right s1
        | _ => (.err ⟨"Unreachable.", some op⟩, s1)
    | .call callee closing_paren arguments =>
      match m.evaluate callee s with
      | (.err er, s1) => (.err er, s1)
      | (.no_fuel, s1) => (.no_fuel, s1)
      | (.ok callee_result, s1) =>
        match callee_result with
        | .callable id =>
          match s1.callables[id]? with
          | none => (.err ⟨"Can only call functions and classes.", none⟩, s1)
          | some callable =>
            if arguments.length != callable.arity then
              (.err ⟨"Expected " ++ toString callable.arity ++ " arguments but got "
                      ++ toString arguments.length ++ ".", some closing_paren⟩, s1)
            else
              match m.evaluate_arguments arguments s1 with
              | (.err er, s2) => (.err er, s2)
              | (.no_fuel, s2) => (.no_fuel, s2)
              | (.ok arguments_results, s2) =>
                match m.call_callable callable arguments_results s2 with
                | (.err er, s3) => (.err er, s3)
                | (.no_fuel, s3) => (.no_fuel, s3)
                | (.ok v, s3) => (.ok v, { s3 with result := v })
        | _ => (.err ⟨"Can only call functions and classes.", none⟩, s1)
  evaluate_arguments := fun arguments s =>
    match arguments with
    | [] => (.ok [], s)
    | argument :: rest =>
      match m.evaluate argument s with
      | (.err er, s1) => (.err er, s1)
      | (.no_fuel, s1) => (.no_fuel, s1)
      | (.ok v, s1) =>
        match m.evaluate_arguments rest s1 with
        | (.err er, s2) => (.err er, s2)
        | (.no_fuel, s2) => (.no_fuel, s2)
        | (.ok vs, s2) => (.ok (v :: vs), s2)
  call_callable := fun c arguments s =>
    match c with
    | .clock => (.ok (.number s.now), s)
    | .function _name parameters body enclosed =>
      let caller_environment := s.environment
      let s1 : Interpreter :=
        { s with
          frames := s.frames ++ [bind_parameters ⟨[], some enclosed⟩ (parameters.zip arguments)]
          environment := s.frames.length }
      let r := m.execute_body body s1
      (r.1, { r.2 with environment := caller_environment })
  execute_body := fun statements s =>
    match statements with
    | [] => (.ok Literal.nil, s)
    | statement :: rest =>
      match m.execute statement s with
      | (.err er, s1) => (.err er, s1)
      | (.no_fuel, s1) => (.no_fuel, s1)
      | (.ok _, s1) =>
        if s1.returning then (.ok s1.result, { s1 with returning := false })
        else m.execute_body rest s1
  execute := fun stmt s =>
    match stmt with
    | .expr_stmt e =>
      match m.evaluate e s with
      | (.err er, s1) => (.err er, s1)
      | (.no_fuel, s1) => (.no_fuel, s1)
      | (.ok _, s1) => (.ok (), s1)
    | .if_stmt condition then_branch else_branch =>
      match m.evaluate condition s with
      | (.err er, s1) => (.err er, s1)
      | (.no_fuel, s1) => (.no_fuel, s1)
      | (.ok condition_result, s1) =>
        if is_truthy condition_result then m.execute then_branch s1
        else
          match else_branch with
          | some els => m.execute els s1
          | none => (.ok (), s1)
    | .while_stmt condition body =>
      match m.evaluate condition s with
      | (.err er, s1) => (.err er, s1)
      | (.no_fuel, s1) => (.no_fuel, s1)
      | (.ok condition_result, s1) =>
        if is_truthy condition_result then
          match m.execute body s1 with
          | (.err er, s2) => (.err er, s2)
          | (.no_fuel, s2) => (.no_fuel, s2)
          | (.ok _, s2) =>
            if s2.returning then (.ok (), s2)
            else m.execute (.while_stmt condition body) s2
        else (.ok (), s1)
    | .print_stmt e =>
      match m.evaluate e s with
      | (.err er, s1) => (.err er, s1)
      | (.no_fuel, s1) => (.no_fuel, s1)
      | (.ok v, s1) => (.ok (), { s1 with output := s1.output ++ [v] })
    | .var_stmt name initializer =>
      match initializer with
      | some init_expr =>
        match m.evaluate init_expr s with
        | (.err er, s1) => (.err er, s1)
        | (.no_fuel, s1) => (.no_fuel, s1)
        | (.ok v, s1) => (.ok (), define_var s1 name.lexeme v)
      | none => (.ok (), define_var s name.lexeme Literal.nil)
    | .block statements =>
      let enclosed := s.environment
      let s1 : Interpreter :=
        { s with
          frames := s.frames ++ [{ values := [], enclosed := some enclosed }]
          environment := s.frames.length }
      let r := m.execute_block statements s1
      (r.1, { r.2 with environment := enclosed })
    | .function_stmt name parameters body =>
      let id := s.callables.length
      let s1 : Interpreter :=
        { s with callables := s.callables ++ [Callable.function name parameters body s.environment] }
      (.ok (), define_var s1 name.lexeme (Literal.callable id))
    | .return_stmt value =>
      match value with
      | some e =>
        match m.evaluate e s with
        | (.err er, s1) => (.err er, s1)
        | (.no_fuel, s1) => (.no_fuel, s1)
        | (.ok v, s1) => (.ok (), { s1 with result := v, returning := true })
      | none => (.ok (), { s with result := Literal.nil, returning := true })
  execute_block := fun statements s =>
    match statements with
    | [] => (.ok (), s)
    | statement :: rest =>
      match m.execute statement s with
      | (.err er, s1) => (.err er, s1)
      | (.no_fuel, s1) => (.no_fuel, s1)
      | (.ok _, s1) =>
        if s1.returning then (.ok (), s1)
        else m.execute_block rest s1

def machine (fuel : Nat) : Machine :=
  Nat.rec machine_zero (fun _ ih => machine_step ih) fuel

def evaluate (fuel : Nat) (e : Expr) (s : Interpreter) : Res Literal × Interpreter :=
  (machine fuel).evaluate e s

def evaluate_arguments (fuel : Nat) (arguments : List Expr) (s : Interpreter) :
    Res (List Literal) × Interpreter :=
  (machine fuel).evaluate_arguments arguments s

def call_callable (fuel : Nat) (c : Callable) (arguments : List Literal)
    (s : Interpreter) : Res Literal × Interpreter :=
  (machine fuel).call_callable c arguments s

def execute_body (fuel : Nat) (statements : List Stmt) (s : Interpreter) :
    Res Literal × Interpreter :=
  (machine fuel).execute_body statements s

def execute (fuel : Nat) (stmt : Stmt) (s : Interpreter) : Res Unit × Interpreter :=
  (machine fuel).execute stmt s

def execute_block (fuel : Nat) (statements : List Stmt) (s : Interpreter) :
    Res Unit × Interpreter :=
  (machine fuel).execute_block statements s

/-- Modelled from the spec: the driver (excluded from the evaluation core,
not among the repository's staged sources) "hands the Interpreter a sequence
of statements; the Interpreter evaluates each" — executed in order, a
propagating runtime error ends the run.  The driver knows nothing of the
returning flag, so no flag check happens between top-level statements. -/
def run_program : Nat → List Stmt → Interpreter → Res Unit × Interpreter
  | 0, _, s => (.no_fuel, s)
  | _fuel + 1, [], s => (.ok (), s)
  | fuel + 1, statement :: rest, s =>
    match execute fuel statement s with
    | (.err er, s1) => (.err er, s1)
    | (.no_fuel, s1) => (.no_fuel, s1)
    | (.ok _, s1) => run_program fuel rest s1

/-- The variant kind a Literal holds (which alternative of the
`boost::variant` is active); `Is_equal_visitor`'s generic overload fires
exactly when the two kinds differ. -/
def variant_kind : Literal → Nat
  | .nil => 0
  | .boolean _ => 1
  | .number _ => 2
  | .string _ => 3
  | .callable _ => 4

mutual

/-- Whether evaluating this expression can reach a `Call_expr` (the only
construct that invokes a callable, and hence the only way
`Interpreter::Function::call` — the single site that clears `returning_` —
can run). -/
def Expr.has_call : Expr → Bool
  | .literal _ => false
  | .grouping inner => inner.has_call
  | .unary _ right => right.has_call
  | .binary left _ right => left.has_call || right.has_call
  | .var _ => false
  | .assign _ value => value.has_call
  | .logical left _ right => left.has_call || right.has_call
  | .call _ _ _ => true

/-- Whether executing this statement can reach a `Call_expr`.  A
`Function_stmt` only constructs the closure object — nothing of its body
runs — so it counts false. -/
def Stmt.has_call : Stmt → Bool
  | .expr_stmt e => e.has_call
  | .if_stmt condition then_branch else_branch =>
    condition.has_call || then_branch.has_call ||
      (match else_branch with
       | some els => els.has_call
       | none => false)
  | .while_stmt condition body => condition.has_call || body.has_call
  | .print_stmt e => e.has_call
  | .var_stmt _ initializer =>
    (match initializer with
     | some init_expr => init_expr.has_call
     | none => false)
  | .block statements => Stmt.has_call_list statements
  | .function_stmt _ _ _ => false
  | .return_stmt value =>
    (match value with
     | some e => e.has_call
     | none => false)

/-- `has_call` over a statement list. -/
def Stmt.has_call_list : List Stmt → Bool
  | [] => false
  | statement :: rest => statement.has_call || Stmt.has_call_list rest

end

/-! Concrete inputs used by counterexamples, demonstration conjuncts and
witnesses.  Token lexemes and lines are arbitrary parser metadata; only
`type` and `lexeme` matter to the evaluator. -/

/-- An identifier token. -/
def ident (nm : String) : Token := ⟨.identifier, nm, 1⟩

/-- The closing-paren token of a call expression. -/
def closing_paren_token : Token := ⟨.identifier, ")", 1⟩

/-- An operator token. -/
def op_token (t : Token_type) (lexeme : String) : Token := ⟨t, lexeme, 1⟩

/-- A number literal expression. -/
def num_expr (n : Int) : Expr := .literal (.number (.fin (Frac.ofInt n)))

/-- Lox: `fun f(a, b) {}  var y = 0;  f(y = 1);` — a call with too few
arguments whose single argument expression has a visible side effect. -/
def c1_program : List Stmt :=
  [ .function_stmt (ident "f") [ident "a", ident "b"] [],
    .var_stmt (ident "y") (some (num_expr 0)),
    .expr_stmt (.call (.var (ident "f")) closing_paren_token
      [.assign (ident "y") (num_expr 1)]) ]

/-- Lox: `var y = 0;  x = (y = 1);` — assignment to an unbound target whose
right-hand side has a visible side effect. -/
def c2_program : List Stmt :=
  [ .var_stmt (ident "y") (some (num_expr 0)),
    .expr_stmt (.assign (ident "x") (.assign (ident "y") (num_expr 1))) ]

/-- Lox: `fun sub(a, b) { return a - b; }  print sub(10, 4);` — positional
parameter binding is visible in the non-commutative result. -/
def c3_positional_program : List Stmt :=
  [ .function_stmt (ident "sub") [ident "a", ident "b"]
      [.return_stmt (some (.binary (.var (ident "a")) (op_token .minus "-")
        (.var (ident "b"))))],
    .print_stmt (.call (.var (ident "sub")) closing_paren_token
      [num_expr 10, num_expr 4]) ]

/-- Lox: `var g0; var g1; var i = 0;
while (i < 2) { var j = i; fun h() { return j; } if (i == 0) g0 = h; else g1 = h; i = i + 1; }
print g0(); print g1();` — each loop iteration's closure captures that
iteration's `j`, observed after the loop and its blocks have exited. -/
def c3_closure_program : List Stmt :=
  [ .var_stmt (ident "g0") none,
    .var_stmt (ident "g1") none,
    .var_stmt (ident "i") (some (num_expr 0)),
    .while_stmt (.binary (.var (ident "i")) (op_token .less "<") (num_expr 2))
      (.block
        [ .var_stmt (ident "j") (some (.var (ident "i"))),
          .function_stmt (ident "h") [] [.return_stmt (some (.var (ident "j")))],
          .if_stmt (.binary (.var (ident "i")) (op_token .equal_equal "==") (num_expr 0))
            (.expr_stmt (.assign (ident "g0") (.var (ident "h"))))
            (some (.expr_stmt (.assign (ident "g1") (.var (ident "h"))))),
          .expr_stmt (.assign (ident "i")
            (.binary (.var (ident "i")) (op_token .plus "+") (num_expr 1))) ]),
    .print_stmt (.call (.var (ident "g0")) closing_paren_token []),
    .print_stmt (.call (.var (ident "g1")) closing_paren_token []) ]

/-- Lox: `fun fact(n) { if (n <= 1) return 1; return n * fact(n - 1); }
print fact(5);` — self-recursion through the name bound by the declaration. -/
def c3_recursion_program : List Stmt :=
  [ .function_stmt (ident "fact") [ident "n"]
      [ .if_stmt (.binary (.var (ident "n")) (op_token .less_equal "<=") (num_expr 1))
          (.return_stmt (some (num_expr 1))) none,
        .return_stmt (some (.binary (.var (ident "n")) (op_token .star "*")
          (.call (.var (ident "fact")) closing_paren_token
            [.binary (.var (ident "n")) (op_token .minus "-") (num_expr 1)]))) ],
    .print_stmt (.call (.var (ident "fact")) closing_paren_token [num_expr 5]) ]

/-- Lox: `fun f() { while (true) { if (true) { return 42; } } }
print f(); print 7;` — a return nested in while/if/block stops everything up
to the function call boundary and only up to it. -/
def c4_return_program : List Stmt :=
  [ .function_stmt (ident "f") []
      [ .while_stmt (.literal (.boolean true))
          (.block
            [ .if_stmt (.literal (.boolean true))
                (.block [.return_stmt (some (num_expr 42))]) none ]) ],
    .print_stmt (.call (.var (ident "f")) closing_paren_token []),
    .print_stmt (num_expr 7) ]

/-- Lox: `var a = 1; { var a = 2; print a; } print a;` — the spec's
shadowing example. -/
def c7_shadow_program : List Stmt :=
  [ .var_stmt (ident "a") (some (num_expr 1)),
    .block
      [ .var_stmt (ident "a") (some (num_expr 2)),
        .print_stmt (.var (ident "a")) ],
    .print_stmt (.var (ident "a")) ]

/-- Lox: `return; { print 1; print 2; }` at the top level — the returning
flag is set with no enclosing function call to consume it. -/
def c10_program : List Stmt :=
  [ .return_stmt none,
    .block [.print_stmt (num_expr 1), .print_stmt (num_expr 2)] ]

/-! Step equations: how one unit of fuel unfolds each evaluator case.  Each
is definitional (`rfl`); they exist so the claim proofs can rewrite with
them symbolically. -/

/-- Fuel exhaustion for expression evaluation. -/
theorem evaluate_zero (e : Expr) (s : Interpreter) :
    evaluate 0 e s = (.no_fuel, s) := rfl

/-- Literal_expr: the embedded constant, stored into `result_`. -/
theorem evaluate_literal (fuel : Nat) (value : Literal) (s : Interpreter) :
    evaluate (fuel + 1) (.literal value) s = (.ok value, { s with result := value }) := rfl

/-- Grouping_expr: the inner expression's value. -/
theorem evaluate_grouping (fuel : Nat) (inner : Expr) (s : Interpreter) :
    evaluate (fuel + 1) (.grouping inner) s = evaluate fuel inner s := rfl

/-- Unary_expr: evaluate the operand, then dispatch on the operator. -/
theorem evaluate_unary (fuel : Nat) (op : Token) (right : Expr) (s : Interpreter) :
    evaluate (fuel + 1) (.unary op right) s
      = (match evaluate fuel right s with
         | (.err er, s1) => (.err er, s1)
         | (.no_fuel, s1) => (.no_fuel, s1)
         | (.ok unary_result, s1) =>
           match op.type with
           | .minus =>
             match get_double unary_result with
             | some n =>
               let v := Literal.number (Dbl.neg n); (.ok v, { s1 with result := v })
             | none => (.err ⟨"Operands must be numbers.", some op⟩, s1)
           | .bang =>
             let v := Literal.boolean (! is_truthy unary_result)
             (.ok v, { s1 with result := v })
           | _ => (.err ⟨"Unreachable.", some op⟩, s1)) := rfl

/-- Binary_expr: evaluate left then right — both always — then dispatch. -/
theorem evaluate_binary (fuel : Nat) (left : Expr) (op : Token) (right : Expr)
    (s : Interpreter) :
    evaluate (fuel + 1) (.binary left op right) s
      = (match evaluate fuel left s with
         | (.err er, s1) => (.err er, s1)
         | (.no_fuel, s1) => (.no_fuel, s1)
         | (.ok left_result, s1) =>
           match evaluate fuel right s1 with
           | (.err er, s2) => (.err er, s2)
           | (.no_fuel, s2) => (.no_fuel, s2)
           | (.ok right_result, s2) =>
             match op.type with
             | .greater =>
               numeric_binary op (fun a b => .boolean (Dbl.gt a b)) left_result right_result s2
             | .greater_equal =>
               numeric_binary op (fun a b => .boolean (Dbl.ge a b)) left_result right_result s2
             | .less =>
               numeric_binary op (fun a b => .boolean (Dbl.lt a b)) left_result right_result s2
             | .less_equal =>
               numeric_binary op (fun a b => .boolean (Dbl.le a b)) left_result right_result s2
             | .bang_equal =>
               let v := Literal.boolean (! is_equal left_result right_result)
               (.ok v, { s2 with result := v })
             | .equal_equal =>
               let v := Literal.boolean (is_equal left_result right_result)
               (.ok v, { s2 with result := v })
             | .minus =>
               numeric_binary op (fun a b => .number (Dbl.sub a b)) left_result right_result s2
             | .plus =>
               match plus_visitor left_result right_result with
               | .ok v => (.ok v, { s2 with result := v })
               | .err er => (.err er, s2)
               | .no_fuel => (.no_fuel, s2)
             | .slash =>
               numeric_binary op (fun a b => .number (Dbl.div a b)) left_result right_result s2
             | .star =>
               numeric_binary op (fun a b => .number (Dbl.mul a b)) left_result right_result s2
             | _ => (.err ⟨"Unreachable.", some op⟩, s2)) := rfl

/-- Var_expr: resolve in the chain; unbound is a NameError. -/
theorem evaluate_var (fuel : Nat) (name : Token) (s : Interpreter) :
    evaluate (fuel + 1) (.var name) s
      = (match find_in_chain s.frames s.environment name.lexeme with
         | none => (.err ⟨"Undefined variable '" ++ name.lexeme ++ "'.", none⟩, s)
         | some loc =>
           let v := read_slot s.frames loc
           (.ok v, { s with result := v })) := rfl

/-- Assign_expr: resolve the target first; only if bound evaluate the value. -/
theorem evaluate_assign (fuel : Nat) (name : Token) (value : Expr) (s : Interpreter) :
    evaluate (fuel + 1) (.assign name value) s
      = (match find_in_chain s.frames s.environment name.lexeme with
         | none => (.err ⟨"Undefined variable '" ++ name.lexeme ++ "'.", none⟩, s)
         | some loc =>
           match evaluate fuel value s with
           | (.err er, s1) => (.err er, s1)
           | (.no_fuel, s1) => (.no_fuel, s1)
           | (.ok v, s1) =>
             (.ok v, { s1 with frames := assign_slot s1.frames loc v, result := v })) := rfl

/-- Logical_expr: evaluate left; short-circuit or fall through to right. -/
theorem evaluate_logical (fuel : Nat) (left : Expr) (op : Token) (right : Expr)
    (s : Interpreter) :
    evaluate (fuel + 1) (.logical left op right) s
      = (match evaluate fuel left s with
         | (.err er, s1) => (.err er, s1)
         | (.no_fuel, s1) => (.no_fuel, s1)
         | (.ok left_result, s1) =>
           match op.type with
           | .or_kw =>
             if is_truthy left_result then (.ok left_result, { s1 with result := left_result })
             else evaluate fuel right s1
           | .and_kw =>
             if ! is_truthy left_result then (.ok left_result, { s1 with result := left_result })
             else evaluate fuel right s1
           | _ => (.err ⟨"Unreachable.", some op⟩, s1)) := rfl

/-- Call_expr: evaluate the callee, check callability, check arity, only
then evaluate the arguments and invoke. -/
theorem evaluate_call (fuel : Nat) (callee : Expr) (closing_paren : Token)
    (arguments : List Expr) (s : Interpreter) :
    evaluate (fuel + 1) (.call callee closing_paren arguments) s
      = (match evaluate fuel callee s with
         | (.err er, s1) => (.err er, s1)
         | (.no_fuel, s1) => (.no_fuel, s1)
         | (.ok callee_result, s1) =>
           match callee_result with
           | .callable id =>
             match s1.callables[id]? with
             | none => (.err ⟨"Can only call functions and classes.", none⟩, s1)
             | some callable =>
               if arguments.length != callable.arity then
                 (.err ⟨"Expected " ++ toString callable.arity ++ " arguments but got "
                         ++ toString arguments.length ++ ".", some closing_paren⟩, s1)
               else
                 match evaluate_arguments fuel arguments s1 with
                 | (.err er, s2) => (.err er, s2)
                 | (.no_fuel, s2) => (.no_fuel, s2)
                 | (.ok arguments_results, s2) =>
                   match call_callable fuel callable arguments_results s2 with
                   | (.err er, s3) => (.err er, s3)
                   | (.no_fuel, s3) => (.no_fuel, s3)
                   | (.ok v, s3) => (.ok v, { s3 with result := v })
           | _ => (.err ⟨"Can only call functions and classes.", none⟩, s1)) := rfl

/-- Fuel exhaustion for the argument list. -/
theorem evaluate_arguments_zero (arguments : List Expr) (s : Interpreter) :
    evaluate_arguments 0 arguments s = (.no_fuel, s) := rfl

/-- An empty argument list. -/
theorem evaluate_arguments_nil (fuel : Nat) (s : Interpreter) :
    evaluate_arguments (fuel + 1) [] s = (.ok [], s) := rfl

/-- Arguments are evaluated head first, left to right. -/
theorem evaluate_arguments_cons (fuel : Nat) (argument : Expr) (rest : List Expr)
    (s : Interpreter) :
    evaluate_arguments (fuel + 1) (argument :: rest) s
      = (match evaluate fuel argument s with
         | (.err er, s1) => (.err er, s1)
         | (.no_fuel, s1) => (.no_fuel, s1)
         | (.ok v, s1) =>
           match evaluate_arguments fuel rest s1 with
           | (.err er, s2) => (.err er, s2)
           | (.no_fuel, s2) => (.no_fuel, s2)
           | (.ok vs, s2) => (.ok (v :: vs), s2)) := rfl

/-- Fuel exhaustion for a call. -/
theorem call_callable_zero (c : Callable) (arguments : List Literal) (s : Interpreter) :
    call_callable 0 c arguments s = (.no_fuel, s) := rfl

/-- The native clock. -/
theorem call_callable_clock (fuel : Nat) (arguments : List Literal) (s : Interpreter) :
    call_callable (fuel + 1) .clock arguments s = (.ok (.number s.now), s) := rfl

/-- Function::call: fresh child of the captured environment, positional
parameter binding, body run, caller environment restored on every exit. -/
theorem call_callable_function (fuel : Nat) (name : Token) (parameters : List Token)
    (body : List Stmt) (enclosed : Nat) (arguments : List Literal) (s : Interpreter) :
    call_callable (fuel + 1) (.function name parameters body enclosed) arguments s
      = (let s1 : Interpreter :=
           { s with
             frames := s.frames
               ++ [bind_parameters ⟨[], some enclosed⟩ (parameters.zip arguments)]
             environment := s.frames.length }
         let r := execute_body fuel body s1
         (r.1, { r.2 with environment := s.environment })) := rfl

/-- Fuel exhaustion for the body loop. -/
theorem execute_body_zero (statements : List Stmt) (s : Interpreter) :
    execute_body 0 statements s = (.no_fuel, s) := rfl

/-- A body that ran out of statements without returning yields nil. -/
theorem execute_body_nil (fuel : Nat) (s : Interpreter) :
    execute_body (fuel + 1) [] s = (.ok Literal.nil, s) := rfl

/-- One body statement, then the returning-flag check — consuming the flag
yields `result_` with the flag cleared. -/
theorem execute_body_cons (fuel : Nat) (statement : Stmt) (rest : List Stmt)
    (s : Interpreter) :
    execute_body (fuel + 1) (statement :: rest) s
      = (match execute fuel statement s with
         | (.err er, s1) => (.err er, s1)
         | (.no_fuel, s1) => (.no_fuel, s1)
         | (.ok _, s1) =>
           if s1.returning then (.ok s1.result, { s1 with returning := false })
           else execute_body fuel rest s1) := rfl

/-- Fuel exhaustion for statements. -/
theorem execute_zero (stmt : Stmt) (s : Interpreter) :
    execute 0 stmt s = (.no_fuel, s) := rfl

/-- Expr_stmt: evaluate and discard. -/
theorem execute_expr_stmt (fuel : Nat) (e : Expr) (s : Interpreter) :
    execute (fuel + 1) (.expr_stmt e) s
      = (match evaluate fuel e s with
         | (.err er, s1) => (.err er, s1)
         | (.no_fuel, s1) => (.no_fuel, s1)
         | (.ok _, s1) => (.ok (), s1)) := rfl

/-- If_stmt: truthy condition runs the then-branch, else the else-branch. -/
theorem execute_if (fuel : Nat) (condition : Expr) (then_branch : Stmt)
    (else_branch : Option Stmt) (s : Interpreter) :
    execute (fuel + 1) (.if_stmt condition then_branch else_branch) s
      = (match evaluate fuel condition s with
         | (.err er, s1) => (.err er, s1)
         | (.no_fuel, s1) => (.no_fuel, s1)
         | (.ok condition_result, s1) =>
           if is_truthy condition_result then execute fuel then_branch s1
           else
             match else_branch with
             | some els => execute fuel els s1
             | none => (.ok (), s1)) := rfl

/-- While_stmt: condition, body, returning-flag check, iterate. -/
theorem execute_while (fuel : Nat) (condition : Expr) (body : Stmt) (s : Interpreter) :
    execute (fuel + 1) (.while_stmt condition body) s
      = (match evaluate fuel condition s with
         | (.err er, s1) => (.err er, s1)
         | (.no_fuel, s1) => (.no_fuel, s1)
         | (.ok condition_result, s1) =>
           if is_truthy condition_result then
             match execute fuel body s1 with
             | (.err er, s2) => (.err er, s2)
             | (.no_fuel, s2) => (.no_fuel, s2)
             | (.ok _, s2) =>
               if s2.returning then (.ok (), s2)
               else execute fuel (.while_stmt condition body) s2
           else (.ok (), s1)) := rfl

/-- Print_stmt: evaluate and append the rendering to the output. -/
theorem execute_print (fuel : Nat) (e : Expr) (s : Interpreter) :
    execute (fuel + 1) (.print_stmt e) s
      = (match evaluate fuel e s with
         | (.err er, s1) => (.err er, s1)
         | (.no_fuel, s1) => (.no_fuel, s1)
         | (.ok v, s1) => (.ok (), { s1 with output := s1.output ++ [v] })) := rfl

/-- Var_stmt with initializer: evaluate it, then define in the active frame. -/
theorem execute_var_some (fuel : Nat) (name : Token) (init_expr : Expr) (s : Interpreter) :
    execute (fuel + 1) (.var_stmt name (some init_expr)) s
      = (match evaluate fuel init_expr s with
         | (.err er, s1) => (.err er, s1)
         | (.no_fuel, s1) => (.no_fuel, s1)
         | (.ok v, s1) => (.ok (), define_var s1 name.lexeme v)) := rfl

/-- Var_stmt without initializer: define as nil. -/
theorem execute_var_none (fuel : Nat) (name : Token) (s : Interpreter) :
    execute (fuel + 1) (.var_stmt name none) s
      = (.ok (), define_var s name.lexeme Literal.nil) := rfl

/-- Block_stmt: fresh child environment, run the statements, restore. -/
theorem execute_block_stmt (fuel : Nat) (statements : List Stmt) (s : Interpreter) :
    execute (fuel + 1) (.block statements) s
      = (let r := execute_block fuel statements
           { s with
             frames := s.frames ++ [{ values := [], enclosed := some s.environment }]
             environment := s.frames.length }
         (r.1, { r.2 with environment := s.environment })) := rfl

/-- Function_stmt: allocate the closure over the active environment and bind
its name there. -/
theorem execute_function_stmt (fuel : Nat) (name : Token) (parameters : List Token)
    (body : List Stmt) (s : Interpreter) :
    execute (fuel + 1) (.function_stmt name parameters body) s
      = (.ok (), define_var
          { s with callables := s.callables
              ++ [.function name parameters body s.environment] }
          name.lexeme (.callable s.callables.length)) := rfl

/-- Return_stmt with a value. -/
theorem execute_return_some (fuel : Nat) (e : Expr) (s : Interpreter) :
    execute (fuel + 1) (.return_stmt (some e)) s
      = (match evaluate fuel e s with
         | (.err er, s1) => (.err er, s1)
         | (.no_fuel, s1) => (.no_fuel, s1)
         | (.ok v, s1) => (.ok (), { s1 with result := v, returning := true })) := rfl

/-- Return_stmt without a value: nil. -/
theorem execute_return_none (fuel : Nat) (s : Interpreter) :
    execute (fuel + 1) (.return_stmt none) s
      = (.ok (), { s with result := Literal.nil, returning := true }) := rfl

/-- Fuel exhaustion for the block loop. -/
theorem execute_block_zero (statements : List Stmt) (s : Interpreter) :
    execute_block 0 statements s = (.no_fuel, s) := rfl

/-- An exhausted block statement list. -/
theorem execute_block_nil (fuel : Nat) (s : Interpreter) :
    execute_block (fuel + 1) [] s = (.ok (), s) := rfl

/-- One block statement, then the returning-flag check. -/
theorem execute_block_cons (fuel : Nat) (statement : Stmt) (rest : List Stmt)
    (s : Interpreter) :
    execute_block (fuel + 1) (statement :: rest) s
      = (match execute fuel statement s with
         | (.err er, s1) => (.err er, s1)
         | (.no_fuel, s1) => (.no_fuel, s1)
         | (.ok _, s1) =>
           if s1.returning then (.ok (), s1)
           else execute_block fuel rest s1) := rfl

/-! The claim theorems. -/

/-- C5: on every exit path of a block statement or of a `Callable::call` —
normal completion, early exit via the returning flag, a propagating runtime
error, even fuel exhaustion — the interpreter's active-environment reference
ends up exactly what it was on entry, so no failure inside a nested scope
can leave the interpreter pointing at the inner scope. -/
theorem C5_environment_always_restored :
    (∀ fuel statements s,
      (execute fuel (.block statements) s).2.environment = s.environment) ∧
    (∀ fuel c arguments s,
      (call_callable fuel c arguments s).2.environment = s.environment) := by
  constructor
  · intro fuel statements s
    cases fuel with
    | zero => rfl
    | succ f => rfl
  · intro fuel c arguments s
    cases fuel with
    | zero => rfl
    | succ f => cases c with
      | clock => rfl
      | function name parameters body enclosed => rfl

/-- C6: a logical expression evaluates its left operand; if the operator is
`or` and the left value is truthy, or `and` and it is falsey, the result is
the left value itself and the right operand is never evaluated (the final
state is exactly the post-left state, so none of the right operand's side
effects occur); otherwise the result is the right operand's evaluation.
Truthiness: false and nil are falsey; every other value, 0 and the empty
string included, is truthy. -/
theorem C6_logical_short_circuit :
    (∀ fuel left op right s v s1, op.type = Token_type.or_kw →
      evaluate fuel left s = (.ok v, s1) → is_truthy v = true →
      evaluate (fuel + 1) (.logical left op right) s = (.ok v, { s1 with result := v })) ∧
    (∀ fuel left op right s v s1, op.type = Token_type.and_kw →
      evaluate fuel left s = (.ok v, s1) → is_truthy v = false →
      evaluate (fuel + 1) (.logical left op right) s = (.ok v, { s1 with result := v })) ∧
    (∀ fuel left op right s v s1, op.type = Token_type.or_kw →
      evaluate fuel left s = (.ok v, s1) → is_truthy v = false →
      evaluate (fuel + 1) (.logical left op right) s = evaluate fuel right s1) ∧
    (∀ fuel left op right s v s1, op.type = Token_type.and_kw →
      evaluate fuel left s = (.ok v, s1) → is_truthy v = true →
      evaluate (fuel + 1) (.logical left op right) s = evaluate fuel right s1) ∧
    (∀ b, is_truthy (.boolean b) = b) ∧
    (is_truthy .nil = false) ∧
    (∀ n, is_truthy (.number n) = true) ∧
    (is_truthy (.number (.fin (Frac.ofInt 0))) = true) ∧
    (∀ text, is_truthy (.string text) = true) ∧
    (is_truthy (.string "") = true) ∧
    (∀ i, is_truthy (.callable i) = true) := by
  refine ⟨?_, ?_, ?_, ?_, fun b => rfl, rfl, fun n => rfl, rfl, fun text => rfl, rfl,
    fun i => rfl⟩ <;>
    (intro fuel left op right s v s1 hop hleft htruthy
     simp [evaluate_logical, hop, hleft, htruthy])

/-- C6 witness: `true or (x = 1)` short-circuits in the initial state — the
right operand, an assignment that would fail with a NameError (and in
general could have side effects), is never evaluated. -/
theorem C6_witness :
    evaluate 2 (.logical (.literal (.boolean true)) (op_token .or_kw "or")
        (.assign (ident "x") (num_expr 1))) (init_interpreter .nan)
      = (.ok (.boolean true),
         { init_interpreter .nan with result := .boolean true }) :=
  C6_logical_short_circuit.1 1 (.literal (.boolean true)) (op_token .or_kw "or")
    (.assign (ident "x") (num_expr 1)) (init_interpreter .nan)
    (.boolean true) { init_interpreter .nan with result := .boolean true }
    rfl rfl rfl

/-- C2 (amended): an assignment expression resolves its target name in the
environment chain first; when the name is unbound in every frame it fails
with `Undefined variable '<name>'.` and the state is completely unchanged —
in particular the right-hand side has not been evaluated, so its side
effects do not occur, and nothing is implicitly declared.  When the target
is bound, the right-hand side is evaluated and its value overwrites the
existing slot (again no implicit declaration). -/
theorem C2_assignment_resolves_target_first :
    (∀ fuel name value s,
      find_in_chain s.frames s.environment name.lexeme = none →
      evaluate (fuel + 1) (.assign name value) s
        = (.err ⟨"Undefined variable '" ++ name.lexeme ++ "'.", none⟩, s)) ∧
    (∀ fuel name value s loc,
      find_in_chain s.frames s.environment name.lexeme = some loc →
      evaluate (fuel + 1) (.assign name value) s
        = (match evaluate fuel value s with
           | (.err er, s1) => (.err er, s1)
           | (.no_fuel, s1) => (.no_fuel, s1)
           | (.ok v, s1) =>
             (.ok v, { s1 with frames := assign_slot s1.frames loc v, result := v }))) := by
  constructor
  · intro fuel name value s hfind
    simp [evaluate_assign, hfind]
  · intro fuel name value s loc hfind
    simp only [evaluate_assign, hfind]

/-- C2 counterexample: running `var y = 0; x = (y = 1);` fails with
`Undefined variable 'x'.` while `y` still holds 0 — the claim's assertion
that "the right-hand side's side effects occur even when the target is
unbound" is false on the code (the inner assignment `y = 1` never ran), as
is its claimed evaluate-right-hand-side-first order. -/
theorem C2_counterexample :
    (run_program 10 c2_program (init_interpreter .nan)).1
        = .err ⟨"Undefined variable 'x'.", none⟩ ∧
    (run_program 10 c2_program (init_interpreter .nan)).2.frames
        = [{ values := [("clock", .callable 0), ("y", .number (.fin (Frac.ofInt 0)))],
             enclosed := none }] :=
  ⟨rfl, rfl⟩

/-- C2 witness: assigning to `x` in the freshly initialised interpreter
(where only `clock` is bound) fails with the NameError and leaves the state
untouched. -/
theorem C2_witness :
    evaluate 1 (.assign (ident "x") (num_expr 1)) (init_interpreter .nan)
      = (.err ⟨"Undefined variable 'x'.", none⟩, init_interpreter .nan) :=
  C2_assignment_resolves_target_first.1 0 (ident "x") (num_expr 1)
    (init_interpreter .nan) (by decide)

/-- C1 (amended): a call expression evaluates its callee; once the callee is
a callable, the supplied argument count is compared with the callable's
arity BEFORE any argument expression is evaluated: on mismatch the call
fails with `Expected <n> arguments but got <m>.` attributed to the closing
paren, in exactly the post-callee state — no argument side effect has
occurred.  When the count matches, the arguments are evaluated left to right
into a value list and the callable is invoked on it. -/
theorem C1_arity_checked_before_arguments :
    (∀ fuel callee closing_paren arguments s id c s1,
      evaluate fuel callee s = (.ok (.callable id), s1) →
      s1.callables[id]? = some c →
      arguments.length ≠ c.arity →
      evaluate (fuel + 1) (.call callee closing_paren arguments) s
        = (.err ⟨"Expected " ++ toString c.arity ++ " arguments but got "
                  ++ toString arguments.length ++ ".", some closing_paren⟩, s1)) ∧
    (∀ fuel callee closing_paren arguments s id c s1,
      evaluate fuel callee s = (.ok (.callable id), s1) →
      s1.callables[id]? = some c →
      arguments.length = c.arity →
      evaluate (fuel + 1) (.call callee closing_paren arguments) s
        = (match evaluate_arguments fuel arguments s1 with
           | (.err er, s2) => (.err er, s2)
           | (.no_fuel, s2) => (.no_fuel, s2)
           | (.ok arguments_results, s2) =>
             (match call_callable fuel c arguments_results s2 with
              | (.err er, s3) => (.err er, s3)
              | (.no_fuel, s3) => (.no_fuel, s3)
              | (.ok v, s3) => (.ok v, { s3 with result := v })))) := by
  constructor
  · intro fuel callee closing_paren arguments s id c s1 hcallee hget hlen
    simp [evaluate_call, hcallee, hget, hlen]
  · intro fuel callee closing_paren arguments s id c s1 hcallee hget hlen
    simp only [evaluate_call, hcallee, hget, hlen, bne_self_eq_false,
      Bool.false_eq_true, if_false]

/-- C1 counterexample: running `fun f(a, b) {} var y = 0; f(y = 1);` fails
with the arity error attributed to the closing paren while `y` still holds 0
and no call frame was ever created — the claim's assertion that "the
arguments' side effects have already occurred when the arity error is
raised" (arguments evaluated before the arity comparison) is false on the
code. -/
theorem C1_counterexample :
    (run_program 10 c1_program (init_interpreter .nan)).1
        = .err ⟨"Expected 2 arguments but got 1.", some closing_paren_token⟩ ∧
    (run_program 10 c1_program (init_interpreter .nan)).2.frames
        = [{ values := [("clock", .callable 0), ("f", .callable 1),
                        ("y", .number (.fin (Frac.ofInt 0)))], enclosed := none }] :=
  ⟨rfl, rfl⟩

/-- C1 witness: calling the native clock (arity 0) with one argument fails
with the arity error in exactly the post-callee state. -/
theorem C1_witness :
    evaluate 2 (.call (.var (ident "clock")) closing_paren_token [num_expr 1])
        (init_interpreter .nan)
      = (.err ⟨"Expected 0 arguments but got 1.", some closing_paren_token⟩,
         { init_interpreter .nan with result := .callable 0 }) :=
  C1_arity_checked_before_arguments.1 1 (.var (ident "clock")) closing_paren_token
    [num_expr 1] (init_interpreter .nan) 0 .clock
    { init_interpreter .nan with result := .callable 0 }
    rfl rfl (by decide)

/-- C7: lookup walks outward from the innermost frame (a hit in the own
frame wins without consulting ancestors; a miss delegates to the enclosing
frame), a block runs its statements in a fresh child of the active
environment and restores the previous one, and on the spec's example
`var a = 1; { var a = 2; print a; } print a;` the output is 2 then 1 with
the outer binding unchanged afterwards. -/
theorem C7_lexical_shadowing :
    (∀ frames i var_name j,
      (frames.getD i default).values.findIdx? (fun value => value.1 == var_name)
          = some j →
      find_in_chain frames i var_name = some (i, j)) ∧
    (∀ frames chain_fuel i var_name parent,
      (frames.getD i default).values.findIdx? (fun value => value.1 == var_name)
          = none →
      (frames.getD i default).enclosed = some parent →
      find_in_chain_aux frames (chain_fuel + 1) i var_name
        = find_in_chain_aux frames chain_fuel parent var_name) ∧
    (∀ fuel statements s,
      execute (fuel + 1) (.block statements) s
        = (let r := execute_block fuel statements
             { s with
               frames := s.frames ++ [{ values := [], enclosed := some s.environment }]
               environment := s.frames.length }
           (r.1, { r.2 with environment := s.environment }))) ∧
    ((run_program 20 c7_shadow_program (init_interpreter .nan)).2.output
        = [.number (.fin (Frac.ofInt 2)), .number (.fin (Frac.ofInt 1))]) ∧
    ((run_program 20 c7_shadow_program (init_interpreter .nan)).2.frames.getD 0 default
        = { values := [("clock", .callable 0), ("a", .number (.fin (Frac.ofInt 1)))],
            enclosed := none }) := by
  refine ⟨?_, ?_, ?_, rfl, rfl⟩
  · intro frames i var_name j hfound
    simp only [find_in_chain, find_in_chain_aux, hfound]
  · intro frames chain_fuel i var_name parent hmiss hparent
    simp only [find_in_chain_aux, hmiss, hparent]
  · intro fuel statements s
    rfl

/-- C7 witness: in the initial interpreter `clock` is found in the global
frame itself (nearest wins), and in a two-frame chain where the inner frame
is empty the walk delegates to the enclosing frame. -/
theorem C7_witness :
    find_in_chain (init_interpreter .nan).frames 0 "clock" = some (0, 0) ∧
    find_in_chain_aux [⟨[("a", .number (.fin (Frac.ofInt 7)))], none⟩, ⟨[], some 0⟩] 2 1 "a"
      = find_in_chain_aux [⟨[("a", .number (.fin (Frac.ofInt 7)))], none⟩, ⟨[], some 0⟩] 1 0 "a" :=
  ⟨C7_lexical_shadowing.1 (init_interpreter .nan).frames 0 "clock" 0 (by decide),
   C7_lexical_shadowing.2.1 [⟨[("a", .number (.fin (Frac.ofInt 7)))], none⟩, ⟨[], some 0⟩]
     1 1 "a" 0 (by decide) rfl⟩

/-- C8: binary `+` yields the numeric sum on two numbers, the concatenation
on two strings, and for every other combination of operand kinds fails with
exactly `Operands must be two numbers or two strings.` (and no token
attribution, since `Plus_visitor` throws with the one-argument
constructor). -/
theorem C8_plus_overload :
    (∀ fuel left op right s v1 s1 v2 s2, op.type = Token_type.plus →
      evaluate fuel left s = (.ok v1, s1) → evaluate fuel right s1 = (.ok v2, s2) →
      evaluate (fuel + 1) (.binary left op right) s
        = (match plus_visitor v1 v2 with
           | .ok v => (.ok v, { s2 with result := v })
           | .err er => (.err er, s2)
           | .no_fuel => (.no_fuel, s2))) ∧
    (∀ a b, plus_visitor (.number a) (.number b) = .ok (.number (Dbl.add a b))) ∧
    (∀ lhs rhs, plus_visitor (.string lhs) (.string rhs) = .ok (.string (lhs ++ rhs))) ∧
    (∀ v1 v2,
      (¬ ∃ a b, v1 = Literal.number a ∧ v2 = Literal.number b) →
      (¬ ∃ lhs rhs, v1 = Literal.string lhs ∧ v2 = Literal.string rhs) →
      plus_visitor v1 v2 = .err ⟨"Operands must be two numbers or two strings.", none⟩) := by
  refine ⟨?_, fun a b => rfl, fun lhs rhs => rfl, ?_⟩
  · intro fuel left op right s v1 s1 v2 s2 hop hleft hright
    simp only [evaluate_binary, hop, hleft, hright]
  · intro v1 v2 hnum hstr
    cases v1 <;> cases v2 <;> try rfl
    · exact absurd ⟨_, _, rfl, rfl⟩ hnum
    · exact absurd ⟨_, _, rfl, rfl⟩ hstr

/-- C8 witness: `1 + "a"` fails with the two-numbers-or-two-strings type
error (the dispatch conjunct applied to literal operands, and the
error conjunct applied to a number/string pair). -/
theorem C8_witness :
    evaluate 2 (.binary (num_expr 1) (op_token .plus "+") (.literal (.string "a")))
        (init_interpreter .nan)
      = (.err ⟨"Operands must be two numbers or two strings.", none⟩,
         { init_interpreter .nan with result := .string "a" }) ∧
    plus_visitor (.number (.fin (Frac.ofInt 1))) (.string "a")
      = .err ⟨"Operands must be two numbers or two strings.", none⟩ :=
  ⟨C8_plus_overload.1 1 (num_expr 1) (op_token .plus "+") (.literal (.string "a"))
      (init_interpreter .nan) (.number (.fin (Frac.ofInt 1)))
      { init_interpreter .nan with result := .number (.fin (Frac.ofInt 1)) }
      (.string "a") { init_interpreter .nan with result := .string "a" }
      rfl rfl rfl,
   C8_plus_overload.2.2.2 (.number (.fin (Frac.ofInt 1))) (.string "a")
     (by rintro ⟨a, b, _, h⟩; cases h) (by rintro ⟨lhs, rhs, h, _⟩; cases h)⟩

/-- C9: `==` is false across different variant kinds and the kind's native
equality within a kind — nil equals nil, booleans, strings by value,
callables by shared-reference identity, numbers by IEEE double equality so
`NaN == NaN` is false; `!=` is its exact negation; and both operators
produce a boolean result for all operand kinds, never an error. -/
theorem C9_equality_semantics :
    (∀ v1 v2, variant_kind v1 ≠ variant_kind v2 → is_equal v1 v2 = false) ∧
    (is_equal .nil .nil = true) ∧
    (∀ a b, is_equal (.boolean a) (.boolean b) = (a == b)) ∧
    (∀ lhs rhs, is_equal (.string lhs) (.string rhs) = (lhs == rhs)) ∧
    (∀ i j, is_equal (.callable i) (.callable j) = (i == j)) ∧
    (∀ a b, is_equal (.number a) (.number b) = Dbl.beq a b) ∧
    (∀ q, Dbl.beq (.fin q) (.fin q) = true) ∧
    (Dbl.beq .nan .nan = false) ∧
    (is_equal (.number .nan) (.number .nan) = false) ∧
    (∀ fuel left op right s v1 s1 v2 s2,
      evaluate fuel left s = (.ok v1, s1) → evaluate fuel right s1 = (.ok v2, s2) →
      (op.type = Token_type.equal_equal →
        evaluate (fuel + 1) (.binary left op right) s
          = (.ok (.boolean (is_equal v1 v2)),
             { s2 with result := .boolean (is_equal v1 v2) })) ∧
      (op.type = Token_type.bang_equal →
        evaluate (fuel + 1) (.binary left op right) s
          = (.ok (.boolean (! is_equal v1 v2)),
             { s2 with result := .boolean (! is_equal v1 v2) }))) := by
  refine ⟨?_, rfl, fun a b => rfl, fun lhs rhs => rfl, fun i j => rfl, fun a b => rfl,
    fun q => by simp [Dbl.beq, Frac.beq], rfl, rfl, ?_⟩
  · intro v1 v2 hkind
    cases v1 <;> cases v2 <;> first | rfl | exact absurd rfl hkind
  · intro fuel left op right s v1 s1 v2 s2 hleft hright
    constructor <;> (intro hop; simp only [evaluate_binary, hop, hleft, hright])

/-- C9 witness: `1 == "1"` evaluates to false without error (different
variant kinds), via the dispatch conjunct and the cross-kind conjunct. -/
theorem C9_witness :
    evaluate 2 (.binary (num_expr 1) (op_token .equal_equal "==")
        (.literal (.string "1"))) (init_interpreter .nan)
      = (.ok (.boolean false),
         { init_interpreter .nan with result := .boolean false }) ∧
    is_equal (.number (.fin (Frac.ofInt 1))) (.string "1") = false := by
  constructor
  · have h := (C9_equality_semantics.2.2.2.2.2.2.2.2.2 1 (num_expr 1)
      (op_token .equal_equal "==") (.literal (.string "1")) (init_interpreter .nan)
      (.number (.fin (Frac.ofInt 1))) { init_interpreter .nan with result := .number (.fin (Frac.ofInt 1)) }
      (.string "1") { init_interpreter .nan with result := .string "1" }
      rfl rfl).1 rfl
    exact h
  · exact C9_equality_semantics.1 (.number (.fin (Frac.ofInt 1))) (.string "1") (by decide)

/-- C3: invoking a user function runs its body in a freshly allocated
environment whose enclosing parent is the function's captured closure
environment — not the caller's active environment, which is saved and
restored — with the parameters bound positionally in that fresh frame; a
function declaration captures the currently active environment and binds the
function's name in that same environment.  Concretely: `sub(10, 4) = 6`
(positional binding), closures made in successive loop iterations later see
their own iteration's binding, and `fact(5) = 120` (self-recursion through
the declared name). -/
theorem C3_closures_are_lexical :
    (∀ fuel name parameters body enclosed arguments s,
      call_callable (fuel + 1) (.function name parameters body enclosed) arguments s
        = (let s1 : Interpreter :=
             { s with
               frames := s.frames
                 ++ [bind_parameters ⟨[], some enclosed⟩ (parameters.zip arguments)]
               environment := s.frames.length }
           let r := execute_body fuel body s1
           (r.1, { r.2 with environment := s.environment }))) ∧
    (∀ fuel name parameters body s,
      execute (fuel + 1) (.function_stmt name parameters body) s
        = (.ok (), define_var
            { s with callables := s.callables
                ++ [.function name parameters body s.environment] }
            name.lexeme (.callable s.callables.length))) ∧
    ((run_program 30 c3_positional_program (init_interpreter .nan)).2.output
        = [.number (.fin (Frac.ofInt 6))]) ∧
    ((run_program 200 c3_closure_program (init_interpreter .nan)).2.output
        = [.number (.fin (Frac.ofInt 0)), .number (.fin (Frac.ofInt 1))]) ∧
    ((run_program 200 c3_recursion_program (init_interpreter .nan)).2.output
        = [.number (.fin (Frac.ofInt 120))]) := by
  refine ⟨fun fuel name parameters body enclosed arguments s => rfl,
    fun fuel name parameters body s => rfl, ?_, ?_, ?_⟩ <;> rfl

/-- C4: a return statement stores its value (nil when absent) in the result
register and sets the returning flag; a block or a while body that comes
back with the flag set stops executing further statements; the function-call
body loop consumes the flag — clearing it and yielding the register as the
call's value — and a body that completes without returning yields nil (every
`ok` outcome of the body loop is nil or the consumed register with the flag
cleared).  Concretely, a return nested in while/if/block makes the call
evaluate to 42 and execution continues normally afterwards. -/
theorem C4_return_protocol :
    (∀ fuel s, execute (fuel + 1) (.return_stmt none) s
        = (.ok (), { s with result := .nil, returning := true })) ∧
    (∀ fuel e s v s1, evaluate fuel e s = (.ok v, s1) →
      execute (fuel + 1) (.return_stmt (some e)) s
        = (.ok (), { s1 with result := v, returning := true })) ∧
    (∀ fuel statement rest s s1,
      execute fuel statement s = (.ok (), s1) → s1.returning = true →
      execute_block (fuel + 1) (statement :: rest) s = (.ok (), s1)) ∧
    (∀ fuel condition body s c s1 s2,
      evaluate fuel condition s = (.ok c, s1) → is_truthy c = true →
      execute fuel body s1 = (.ok (), s2) → s2.returning = true →
      execute (fuel + 1) (.while_stmt condition body) s = (.ok (), s2)) ∧
    (∀ fuel statement rest s s1,
      execute fuel statement s = (.ok (), s1) → s1.returning = true →
      execute_body (fuel + 1) (statement :: rest) s
        = (.ok s1.result, { s1 with returning := false })) ∧
    (∀ fuel statements s r s2, execute_body fuel statements s = (.ok r, s2) →
      r = Literal.nil ∨ (r = s2.result ∧ s2.returning = false)) ∧
    ((run_program 200 c4_return_program (init_interpreter .nan)).2.output
        = [.number (.fin (Frac.ofInt 42)), .number (.fin (Frac.ofInt 7))]) ∧
    ((run_program 200 c4_return_program (init_interpreter .nan)).2.returning
        = false) := by
  refine ⟨fun fuel s => rfl, ?_, ?_, ?_, ?_, ?_, rfl, rfl⟩
  · intro fuel e s v s1 hval
    simp [execute_return_some, hval]
  · intro fuel statement rest s s1 hstep hret
    simp [execute_block_cons, hstep, hret]
  · intro fuel condition body s c s1 s2 hcond htruthy hbody hret
    simp [execute_while, hcond, htruthy, hbody, hret]
  · intro fuel statement rest s s1 hstep hret
    simp [execute_body_cons, hstep, hret]
  · intro fuel
    induction fuel with
    | zero =>
      intro statements s r s2 h
      simp [execute_body_zero] at h
    | succ f ih =>
      intro statements s r s2 h
      cases statements with
      | nil =>
        simp only [execute_body_nil] at h
        left
        cases h
        rfl
      | cons statement rest =>
        simp only [execute_body_cons] at h
        rcases he : execute f statement s with ⟨re, s1⟩
        rw [he] at h
        cases re with
        | err er => simp at h
        | no_fuel => simp at h
        | ok u =>
          simp only at h
          cases hret : s1.returning with
          | true =>
            simp [hret] at h
            rcases h with ⟨h1, h2⟩
            subst h2
            right
            exact ⟨h1.symm, rfl⟩
          | false =>
            simp [hret] at h
            exact ih rest s1 r s2 h

/-- C4 witness: the conjuncts applied to concrete inputs — `return;` in the
initial state sets the register to nil and the flag; a block and a while
stop after it; the body loop consumes it yielding nil with the flag
cleared; and the completion disjunction holds for the empty body. -/
theorem C4_witness :
    (execute 2 (.return_stmt (some (num_expr 5))) (init_interpreter .nan)
       = (.ok (), { init_interpreter .nan with
                    result := .number (.fin (Frac.ofInt 5)), returning := true })) ∧
    (execute_block 2 [.return_stmt none] (init_interpreter .nan)
       = (.ok (), { init_interpreter .nan with result := .nil, returning := true })) ∧
    (execute 2 (.while_stmt (.literal (.boolean true)) (.return_stmt none))
        (init_interpreter .nan)
       = (.ok (), { init_interpreter .nan with result := .nil, returning := true })) ∧
    (execute_body 2 [.return_stmt none] (init_interpreter .nan)
       = (.ok .nil, { init_interpreter .nan with result := .nil, returning := false })) ∧
    (Literal.nil = Literal.nil ∨
      (Literal.nil = (init_interpreter .nan).result ∧
        (init_interpreter .nan).returning = false)) :=
  ⟨C4_return_protocol.2.1 1 (num_expr 5) (init_interpreter .nan) (.number (.fin (Frac.ofInt 5)))
      { init_interpreter .nan with result := .number (.fin (Frac.ofInt 5)) } rfl,
   C4_return_protocol.2.2.1 1 (.return_stmt none) [] (init_interpreter .nan)
      { init_interpreter .nan with result := .nil, returning := true } rfl rfl,
   C4_return_protocol.2.2.2.1 1 (.literal (.boolean true)) (.return_stmt none)
      (init_interpreter .nan) (.boolean true)
      { init_interpreter .nan with result := .boolean true }
      { init_interpreter .nan with result := .nil, returning := true } rfl rfl rfl rfl,
   C4_return_protocol.2.2.2.2.1 1 (.return_stmt none) [] (init_interpreter .nan)
      { init_interpreter .nan with result := .nil, returning := true } rfl rfl,
   C4_return_protocol.2.2.2.2.2.1 1 [] (init_interpreter .nan) Literal.nil
      (init_interpreter .nan) rfl⟩

/-- Helper for C10: `Interpreter::Function::call` is the only site that
writes `returning_ = false`, and it can only run through a `Call_expr`; so
evaluating any call-free expression, and executing any call-free statement
or statement list, leaves a set returning flag set. -/
theorem returning_flag_preserved_without_calls (fuel : Nat) :
    (∀ e s, Expr.has_call e = false → s.returning = true →
      (evaluate fuel e s).2.returning = true) ∧
    (∀ stmt s, Stmt.has_call stmt = false → s.returning = true →
      (execute fuel stmt s).2.returning = true) ∧
    (∀ statements s, Stmt.has_call_list statements = false → s.returning = true →
      (execute_block fuel statements s).2.returning = true) := by
  induction fuel with
  | zero => exact ⟨fun _ s _ h => h, fun _ s _ h => h, fun _ s _ h => h⟩
  | succ f ih =>
    obtain ⟨ihe, ihs, ihb⟩ := ih
    refine ⟨?_, ?_, ?_⟩
    · intro e s hcall hret
      cases e with
      | literal value => exact hret
      | grouping inner =>
        rw [evaluate_grouping]
        exact ihe inner s (by simpa [Expr.has_call] using hcall) hret
      | unary op right =>
        have h1 : right.has_call = false := by simpa [Expr.has_call] using hcall
        rcases hr : evaluate f right s with ⟨r, s1⟩
        have hs1 : s1.returning = true := by
          have h2 := ihe right s h1 hret
          rw [hr] at h2
          exact h2
        cases r with
        | err er => simp [evaluate_unary, hr]; exact hs1
        | no_fuel => simp [evaluate_unary, hr]; exact hs1
        | ok v =>
          simp only [evaluate_unary, hr]
          cases op.type <;> cases hgd : get_double v <;> simp [hgd, hs1]
      | binary left op right =>
        have h0 : left.has_call = false ∧ right.has_call = false := by
          simpa [Expr.has_call, Bool.or_eq_false_iff] using hcall
        rcases hl : evaluate f left s with ⟨r1, s1⟩
        have hs1 : s1.returning = true := by
          have h2 := ihe left s h0.1 hret
          rw [hl] at h2
          exact h2
        cases r1 with
        | err er => simp [evaluate_binary, hl]; exact hs1
        | no_fuel => simp [evaluate_binary, hl]; exact hs1
        | ok v1 =>
          rcases hr : evaluate f right s1 with ⟨r2, s2⟩
          have hs2 : s2.returning = true := by
            have h2 := ihe right s1 h0.2 hs1
            rw [hr] at h2
            exact h2
          cases r2 with
          | err er => simp [evaluate_binary, hl, hr]; exact hs2
          | no_fuel => simp [evaluate_binary, hl, hr]; exact hs2
          | ok v2 =>
            simp only [evaluate_binary, hl, hr]
            cases op.type <;>
              cases hg1 : get_double v1 <;> cases hg2 : get_double v2 <;>
                cases hpv : plus_visitor v1 v2 <;>
                  simp [numeric_binary, hg1, hg2, hpv, hs2]
      | var name =>
        cases hfind : find_in_chain s.frames s.environment name.lexeme <;>
          simp [evaluate_var, hfind, hret]
      | assign name value =>
        have h1 : value.has_call = false := by simpa [Expr.has_call] using hcall
        cases hfind : find_in_chain s.frames s.environment name.lexeme with
        | none => simp [evaluate_assign, hfind]; exact hret
        | some loc =>
          rcases hv : evaluate f value s with ⟨r, s1⟩
          have hs1 : s1.returning = true := by
            have h2 := ihe value s h1 hret
            rw [hv] at h2
            exact h2
          cases r <;> simp [evaluate_assign, hfind, hv] <;> exact hs1
      | logical left op right =>
        have h0 : left.has_call = false ∧ right.has_call = false := by
          simpa [Expr.has_call, Bool.or_eq_false_iff] using hcall
        rcases hl : evaluate f left s with ⟨r1, s1⟩
        have hs1 : s1.returning = true := by
          have h2 := ihe left s h0.1 hret
          rw [hl] at h2
          exact h2
        cases r1 with
        | err er => simp [evaluate_logical, hl]; exact hs1
        | no_fuel => simp [evaluate_logical, hl]; exact hs1
        | ok v =>
          simp only [evaluate_logical, hl]
          cases op.type <;>
            first
              | exact hs1
              | (cases htr : is_truthy v <;> simp [htr, hs1] <;>
                  exact ihe right s1 h0.2 hs1)
      | call callee closing_paren arguments =>
        simp [Expr.has_call] at hcall
    · intro stmt s hcall hret
      cases stmt with
      | expr_stmt e =>
        have h1 : e.has_call = false := by simpa [Stmt.has_call] using hcall
        rcases hv : evaluate f e s with ⟨r, s1⟩
        have hs1 : s1.returning = true := by
          have h2 := ihe e s h1 hret
          rw [hv] at h2
          exact h2
        cases r <;> simp [execute_expr_stmt, hv] <;> exact hs1
      | if_stmt condition then_branch else_branch =>
        have h1 : condition.has_call = false := by
          cases else_branch with
          | none =>
            have h2 := hcall
            simp [Stmt.has_call, Bool.or_eq_false_iff] at h2
            exact h2.1
          | some els =>
            have h2 := hcall
            simp [Stmt.has_call, Bool.or_eq_false_iff] at h2
            exact h2.1.1
        rcases hc : evaluate f condition s with ⟨r, s1⟩
        have hs1 : s1.returning = true := by
          have h2 := ihe condition s h1 hret
          rw [hc] at h2
          exact h2
        cases r with
        | err er => simp [execute_if, hc]; exact hs1
        | no_fuel => simp [execute_if, hc]; exact hs1
        | ok v =>
          cases else_branch with
          | none =>
            have h3 := hcall
            simp [Stmt.has_call, Bool.or_eq_false_iff] at h3
            simp only [execute_if, hc]
            cases htr : is_truthy v <;> simp [htr, hs1] <;>
              exact ihs then_branch s1 h3.2 hs1
          | some els =>
            have h3 := hcall
            simp [Stmt.has_call, Bool.or_eq_false_iff] at h3
            simp only [execute_if, hc]
            cases htr : is_truthy v
            · simp [htr]
              exact ihs els s1 h3.2 hs1
            · simp [htr]
              exact ihs then_branch s1 h3.1.2 hs1
      | while_stmt condition body =>
        have h0 : condition.has_call = false ∧ body.has_call = false := by
          simpa [Stmt.has_call, Bool.or_eq_false_iff] using hcall
        rcases hc : evaluate f condition s with ⟨r, s1⟩
        have hs1 : s1.returning = true := by
          have h2 := ihe condition s h0.1 hret
          rw [hc] at h2
          exact h2
        cases r with
        | err er => simp [execute_while, hc]; exact hs1
        | no_fuel => simp [execute_while, hc]; exact hs1
        | ok v =>
          simp only [execute_while, hc]
          cases htr : is_truthy v
          · simp [htr, hs1]
          · simp only [htr, if_true]
            rcases hb : execute f body s1 with ⟨rb, s2⟩
            have hs2 : s2.returning = true := by
              have h2 := ihs body s1 h0.2 hs1
              rw [hb] at h2
              exact h2
            cases rb <;> simp [hs2]
      | print_stmt e =>
        have h1 : e.has_call = false := by simpa [Stmt.has_call] using hcall
        rcases hv : evaluate f e s with ⟨r, s1⟩
        have hs1 : s1.returning = true := by
          have h2 := ihe e s h1 hret
          rw [hv] at h2
          exact h2
        cases r <;> simp [execute_print, hv] <;> exact hs1
      | var_stmt name initializer =>
        cases initializer with
        | none => exact hret
        | some init_expr =>
          have h1 : init_expr.has_call = false := by simpa [Stmt.has_call] using hcall
          rcases hv : evaluate f init_expr s with ⟨r, s1⟩
          have hs1 : s1.returning = true := by
            have h2 := ihe init_expr s h1 hret
            rw [hv] at h2
            exact h2
          cases r <;> simp [execute_var_some, hv, define_var] <;> exact hs1
      | block statements =>
        have h1 : Stmt.has_call_list statements = false := by
          simpa [Stmt.has_call] using hcall
        rcases hb : execute_block f statements
          { s with
            frames := s.frames ++ [{ values := [], enclosed := some s.environment }]
            environment := s.frames.length } with ⟨r, s2⟩
        have hs2 : s2.returning = true := by
          have h2 := ihb statements
            { s with
              frames := s.frames ++ [{ values := [], enclosed := some s.environment }]
              environment := s.frames.length } h1 hret
          rw [hb] at h2
          exact h2
        simp [execute_block_stmt, hb]
        exact hs2
      | function_stmt name parameters body => exact hret
      | return_stmt value =>
        cases value with
        | none => rfl
        | some e =>
          have h1 : e.has_call = false := by simpa [Stmt.has_call] using hcall
          rcases hv : evaluate f e s with ⟨r, s1⟩
          have hs1 : s1.returning = true := by
            have h2 := ihe e s h1 hret
            rw [hv] at h2
            exact h2
          cases r <;> simp [execute_return_some, hv] <;> exact hs1
    · intro statements s hcall hret
      cases statements with
      | nil => exact hret
      | cons statement rest =>
        have h0 : statement.has_call = false ∧ Stmt.has_call_list rest = false := by
          simpa [Stmt.has_call_list, Bool.or_eq_false_iff] using hcall
        rcases he : execute f statement s with ⟨r, s1⟩
        have hs1 : s1.returning = true := by
          have h2 := ihs statement s h0.1 hret
          rw [he] at h2
          exact h2
        cases r <;> simp [execute_block_cons, he, hs1]

/-- C10 (amended): a top-level `return;` sets the returning flag; executing
any statement that contains no call expression leaves a set flag set (only
the user-function call frame — reachable only through a call expression —
clears it); a block or a while loop with truthy condition entered while the
flag is set executes its FIRST nested statement and then stops, because the
flag is checked after each nested statement rather than before it; and a
truthy if executes its then-branch. -/
theorem C10_return_flag_outside_function :
    (∀ fuel s, execute (fuel + 1) (.return_stmt none) s
        = (.ok (), { s with result := .nil, returning := true })) ∧
    (∀ fuel e s, Expr.has_call e = false → s.returning = true →
      (evaluate fuel e s).2.returning = true) ∧
    (∀ fuel stmt s, Stmt.has_call stmt = false → s.returning = true →
      (execute fuel stmt s).2.returning = true) ∧
    (∀ fuel statement rest s s1,
      execute fuel statement s = (.ok (), s1) → s1.returning = true →
      execute_block (fuel + 1) (statement :: rest) s = (.ok (), s1)) ∧
    (∀ fuel condition body s c s1 s2,
      evaluate fuel condition s = (.ok c, s1) → is_truthy c = true →
      execute fuel body s1 = (.ok (), s2) → s2.returning = true →
      execute (fuel + 1) (.while_stmt condition body) s = (.ok (), s2)) ∧
    (∀ fuel condition then_branch else_branch s c s1,
      evaluate fuel condition s = (.ok c, s1) → is_truthy c = true →
      execute (fuel + 1) (.if_stmt condition then_branch else_branch) s
        = execute fuel then_branch s1) := by
  refine ⟨fun fuel s => rfl,
    fun fuel => (returning_flag_preserved_without_calls fuel).1,
    fun fuel => (returning_flag_preserved_without_calls fuel).2.1, ?_, ?_, ?_⟩
  · intro fuel statement rest s s1 hstep hret
    simp [execute_block_cons, hstep, hret]
  · intro fuel condition body s c s1 s2 hcond htruthy hbody hret
    simp [execute_while, hcond, htruthy, hbody, hret]
  · intro fuel condition then_branch else_branch s c s1 hcond htruthy
    simp [execute_if, hcond, htruthy]

/-- C10 counterexample: after a top-level `return;`, the block
`{ print 1; print 2; }` executes its first nested statement — the output
contains the 1 — before stopping with the flag still set; the claim's
"stops before executing its nested statements" is false on the code, which
checks the flag only after each nested statement. -/
theorem C10_counterexample :
    (run_program 10 c10_program (init_interpreter .nan)).2.output
        = [.number (.fin (Frac.ofInt 1))] ∧
    (run_program 10 c10_program (init_interpreter .nan)).2.returning = true :=
  ⟨rfl, rfl⟩

/-- C10 witness: with the flag set in the initial state, reading `clock`
(a call-free expression) leaves it set, and a block whose first statement is
a print executes that print and then stops. -/
theorem C10_witness :
    ((evaluate 1 (.var (ident "clock"))
        { init_interpreter .nan with returning := true }).2.returning = true) ∧
    (execute_block 3 [.print_stmt (num_expr 1), .print_stmt (num_expr 2)]
        { init_interpreter .nan with returning := true }
      = (.ok (), { init_interpreter .nan with
                   returning := true
                   result := .number (.fin (Frac.ofInt 1))
                   output := [.number (.fin (Frac.ofInt 1))] })) ∧
    (execute 2 (.if_stmt (.literal (.boolean true)) (.print_stmt (num_expr 1)) none)
        (init_interpreter .nan)
      = execute 1 (.print_stmt (num_expr 1))
          { init_interpreter .nan with result := .boolean true }) :=
  ⟨C10_return_flag_outside_function.2.1 1 (.var (ident "clock"))
      { init_interpreter .nan with returning := true } (by simp [Expr.has_call]) rfl,
   C10_return_flag_outside_function.2.2.2.1 2 (.print_stmt (num_expr 1))
      [.print_stmt (num_expr 2)] { init_interpreter .nan with returning := true }
      { init_interpreter .nan with
        returning := true
        result := .number (.fin (Frac.ofInt 1))
        output := [.number (.fin (Frac.ofInt 1))] } rfl rfl,
   C10_return_flag_outside_function.2.2.2.2.2 1 (.literal (.boolean true))
      (.print_stmt (num_expr 1)) none (init_interpreter .nan) (.boolean true)
      { init_interpreter .nan with result := .boolean true } rfl rfl⟩

end Cpplox
